import Mathlib

/-!
Shallow embedding of the core algorithms of the `genesis` repository
(sentiment-service and transcription-service) together with proofs of the
behavioural properties in the specification.

Conventions of the embedding:
* Python floats are modelled as rationals (`ℚ`).
* `round(x, n)` is modelled by `pyRound n x` (round the scaled value to the
  nearest integer and scale back).
* `str.strip()` is modelled by `pyStrip` (drop leading and trailing
  whitespace characters).
* Fallible calls (the RoBERTa pipeline, Kafka producer creation, sending)
  are modelled with `Except` / outcome parameters, so that both the normal
  and the exceptional control flow of the Python code are explicit.
-/

/-- Whitespace test used by the model of Python `str.strip()`. -/
def isPySpace (c : Char) : Bool :=
  c = ' ' ∨ c = '\t' ∨ c = '\n' ∨ c = '\r' ∨ c = '\x0b' ∨ c = '\x0c'

/-- Model of Python `str.strip()`: remove leading and trailing whitespace. -/
def pyStrip (s : String) : String :=
  ⟨((s.data.dropWhile isPySpace).reverse.dropWhile isPySpace).reverse⟩

/-- Model of Python `round(x, n)` on rationals. -/
def pyRound (n : ℕ) (x : ℚ) : ℚ :=
  ((round (x * 10 ^ n) : ℤ) : ℚ) / 10 ^ n

/-- Default `escalation_threshold` from sentiment-service `config.py`. -/
def escalation_threshold : ℚ := 1/2

/-- Lower end of the default `neutral_range` from sentiment-service `config.py`. -/
def neutral_range_lo : ℚ := -(1/5)

/-- Upper end of the default `neutral_range` from sentiment-service `config.py`. -/
def neutral_range_hi : ℚ := 1/5

/-- A transcription segment as consumed by the sentiment service
(`models.events.TranscriptionSegment`). -/
structure TranscriptionSegment where
  startTime : ℚ
  endTime : ℚ
  text : String
  speaker : Option String
deriving DecidableEq, Inhabited

/-- A per-segment sentiment result (`models.events.SentimentSegment`). -/
structure SentimentSegment where
  startTime : ℚ
  endTime : ℚ
  text : String
  sentiment : String
  score : ℚ
  confidence : ℚ
  emotions : List (String × ℚ)
  speaker : Option String
deriving DecidableEq, Inhabited

/-- The running totals `(total_duration, weighted_sum)` accumulated by the
loop in `SentimentAnalyzer.calculate_overall_sentiment`
(sentiment_service.py lines 205-212): a segment contributes only when its
duration `endTime - startTime` is strictly positive. -/
def sentiment_totals (segments : List SentimentSegment) : ℚ × ℚ :=
  segments.foldl
    (fun acc seg =>
      let duration := seg.endTime - seg.startTime
      if duration > 0 then (acc.1 + duration, acc.2 + seg.score * duration)
      else acc)
    (0, 0)

/-- The label bucketing applied to the overall score in
`calculate_overall_sentiment` (sentiment_service.py lines 220-225). -/
def overall_sentiment_label (lo hi s : ℚ) : String :=
  if lo ≤ s ∧ s ≤ hi then "neutral"
  else if s > 0 then "positive"
  else "negative"

/-- The label bucketing applied to the weighted per-label score in
`_calculate_weighted_score` (sentiment_service.py lines 103-108); the
Python source duplicates the exact lines of the overall bucketing. -/
def weighted_score_sentiment (lo hi w : ℚ) : String :=
  if lo ≤ w ∧ w ≤ hi then "neutral"
  else if w > 0 then "positive"
  else "negative"

/-- `SentimentAnalyzer.calculate_overall_sentiment` (sentiment_service.py
lines 197-227): duration-weighted mean score with a zero-duration guard,
then bucketing into a label. -/
def calculate_overall_sentiment (lo hi : ℚ) (segments : List SentimentSegment) :
    String × ℚ :=
  if segments = [] then ("neutral", 0)
  else
    let totals := sentiment_totals segments
    let total_duration := totals.1
    let weighted_sum := totals.2
    if total_duration = 0 then ("neutral", 0)
    else
      let overall_score := weighted_sum / total_duration
      (overall_sentiment_label lo hi overall_score, overall_score)

/-- Specification-level sum of the positive durations of a segment list. -/
def positive_duration_total (segments : List SentimentSegment) : ℚ :=
  ((segments.filter (fun s => 0 < s.endTime - s.startTime)).map
    (fun s => s.endTime - s.startTime)).sum

/-- Specification-level duration-weighted score sum over the segments with
positive duration. -/
def positive_duration_weighted_sum (segments : List SentimentSegment) : ℚ :=
  ((segments.filter (fun s => 0 < s.endTime - s.startTime)).map
    (fun s => s.score * (s.endTime - s.startTime))).sum

lemma sentiment_totals_eq (segments : List SentimentSegment) :
    ∀ a b : ℚ,
      segments.foldl
        (fun acc seg =>
          let duration := seg.endTime - seg.startTime
          if duration > 0 then (acc.1 + duration, acc.2 + seg.score * duration)
          else acc)
        (a, b) =
      (a + positive_duration_total segments,
       b + positive_duration_weighted_sum segments) := by
  induction segments with
  | nil => intro a b; simp [positive_duration_total, positive_duration_weighted_sum]
  | cons seg rest ih =>
    intro a b
    by_cases h : 0 < seg.endTime - seg.startTime
    · simp only [List.foldl_cons, gt_iff_lt, h, if_true, ite_true,
        positive_duration_total, positive_duration_weighted_sum,
        List.filter_cons, decide_eq_true_eq, List.map_cons, List.sum_cons]
      rw [ih]
      simp only [positive_duration_total, positive_duration_weighted_sum]
      refine Prod.ext ?_ ?_ <;> simp <;> ring
    · simp only [List.foldl_cons, gt_iff_lt, h, if_false, ite_false,
        positive_duration_total, positive_duration_weighted_sum,
        List.filter_cons, decide_eq_true_eq, List.map_cons, List.sum_cons]
      rw [ih]
      simp [positive_duration_total, positive_duration_weighted_sum, h]

lemma sentiment_totals_spec (segments : List SentimentSegment) :
    sentiment_totals segments =
      (positive_duration_total segments, positive_duration_weighted_sum segments) := by
  have h := sentiment_totals_eq segments 0 0
  simpa [sentiment_totals] using h

/-- C2: the aggregator returns the duration-weighted mean over the
positive-duration segments, and neutral with score `0` whenever the total
positive duration is zero (in particular on the empty input). -/
theorem calculate_overall_sentiment_weighting (lo hi : ℚ)
    (segments : List SentimentSegment) :
    (positive_duration_total segments = 0 →
      calculate_overall_sentiment lo hi segments = ("neutral", 0)) ∧
    (positive_duration_total segments ≠ 0 →
      (calculate_overall_sentiment lo hi segments).2 =
        positive_duration_weighted_sum segments / positive_duration_total segments) := by
  constructor
  · intro h0
    unfold calculate_overall_sentiment
    by_cases he : segments = []
    · rw [if_pos he]
    · rw [if_neg he]
      simp [sentiment_totals_spec, h0]
  · intro hne
    have he : segments ≠ [] := by
      intro h
      apply hne
      subst h
      simp [positive_duration_total]
    unfold calculate_overall_sentiment
    rw [if_neg he]
    simp only [sentiment_totals_spec]
    rw [if_neg hne]

/-- Witness for C2: a single zero-duration segment hits the zero-total
guard, and a two-segment list with positive durations takes the weighted
branch. -/
theorem calculate_overall_sentiment_weighting_witness :
    calculate_overall_sentiment neutral_range_lo neutral_range_hi
      [{ startTime := 3, endTime := 3, text := "", sentiment := "neutral",
         score := 1, confidence := 1, emotions := [], speaker := none }] =
      ("neutral", 0) :=
  (calculate_overall_sentiment_weighting neutral_range_lo neutral_range_hi
    [{ startTime := 3, endTime := 3, text := "", sentiment := "neutral",
       score := 1, confidence := 1, emotions := [], speaker := none }]).1
    (by norm_num [positive_duration_total])

/-- C5 counterexample: with the configured band `[0.3, 0.5]` the score
`0.1` lies below the lower edge, yet the code labels it `"positive"`
(the source decides the non-neutral case by the sign of the score, not by
comparison with the band edges), contradicting the claim that every score
below `lo` is labelled `"negative"`. -/
theorem bucketing_below_band_counterexample :
    weighted_score_sentiment (3/10) (1/2) (1/10) = "positive" ∧
    (1/10 : ℚ) < 3/10 := by
  constructor
  · unfold weighted_score_sentiment
    rw [if_neg (by norm_num), if_pos (by norm_num)]
  · norm_num

/-- C5 amended: the two bucketing sites implement the identical rule; the
band is inclusive at both edges; and whenever the band contains `0`
(as the default `[-0.2, 0.2]` does), a score above `hi` is labelled
`"positive"` and a score below `lo` is labelled `"negative"`. -/
theorem bucketing_amended (lo hi s : ℚ) :
    weighted_score_sentiment lo hi s = overall_sentiment_label lo hi s ∧
    (lo ≤ s → s ≤ hi → overall_sentiment_label lo hi s = "neutral") ∧
    (0 ≤ hi → hi < s → overall_sentiment_label lo hi s = "positive") ∧
    (lo ≤ 0 → s < lo → overall_sentiment_label lo hi s = "negative") := by
  refine ⟨rfl, ?_, ?_, ?_⟩
  · intro h1 h2
    unfold overall_sentiment_label
    rw [if_pos ⟨h1, h2⟩]
  · intro h1 h2
    unfold overall_sentiment_label
    rw [if_neg (by intro hc; exact absurd h2 (not_lt.mpr hc.2)),
      if_pos (by linarith)]
  · intro h1 h2
    unfold overall_sentiment_label
    rw [if_neg (by intro hc; exact absurd h2 (not_lt.mpr hc.1)),
      if_neg (by simp; linarith)]

/-- Witness for the amended bucketing theorem at the default band: the
edge value `0.2` is neutral, `0.3` is positive, `-0.3` is negative. -/
theorem bucketing_amended_witness :
    overall_sentiment_label neutral_range_lo neutral_range_hi (1/5) = "neutral" ∧
    overall_sentiment_label neutral_range_lo neutral_range_hi (3/10) = "positive" ∧
    overall_sentiment_label neutral_range_lo neutral_range_hi (-(3/10)) = "negative" :=
  ⟨(bucketing_amended neutral_range_lo neutral_range_hi (1/5)).2.1
      (by norm_num [neutral_range_lo]) (by norm_num [neutral_range_hi]),
   (bucketing_amended neutral_range_lo neutral_range_hi (3/10)).2.2.1
      (by norm_num [neutral_range_hi]) (by norm_num [neutral_range_hi]),
   (bucketing_amended neutral_range_lo neutral_range_hi (-(3/10))).2.2.2
      (by norm_num [neutral_range_lo]) (by norm_num [neutral_range_lo])⟩

/-- Details reported by `detect_escalation` when an escalation is found
(the `escalation_details` dict, sentiment_service.py lines 257-264). -/
structure EscalationDetails where
  maxDrop : ℚ
  startTime : ℚ
  endTime : ℚ
  startScore : ℚ
  endScore : ℚ
  duration : ℚ
deriving DecidableEq, Inhabited

/-- The index pairs visited by the nested loops
`for i in range(n): for j in range(i + 1, n)` of `detect_escalation`,
in their Python iteration order. -/
def pairsFrom (i n : ℕ) : List (ℕ × ℕ) :=
  if _h : i < n then
    ((List.range' (i + 1) (n - (i + 1))).map (fun j => (i, j))) ++ pairsFrom (i + 1) n
  else []
termination_by n - i
decreasing_by omega

/-- One step of the maximum tracking in the loop body of
`detect_escalation` (sentiment_service.py lines 247-251): update the
state `(max_drop, indices)` only on a strictly larger drop. -/
def bestStep {α : Type} (v : α → ℚ) (st : ℚ × α) (k : α) : ℚ × α :=
  if v k > st.1 then (v k, k) else st

lemma mem_pairsFrom {p : ℕ × ℕ} : ∀ {i n : ℕ},
    p ∈ pairsFrom i n ↔ i ≤ p.1 ∧ p.1 < p.2 ∧ p.2 < n := by
  intro i n
  rw [pairsFrom]
  by_cases h : i < n
  · rw [dif_pos h]
    simp only [List.mem_append, List.mem_map, List.mem_range'_1]
    rw [mem_pairsFrom (i := i + 1) (n := n)]
    constructor
    · rintro (⟨j, ⟨hj1, hj2⟩, rfl⟩ | ⟨h1, h2, h3⟩)
      · exact ⟨le_refl i, by omega, by omega⟩
      · exact ⟨by omega, h2, h3⟩
    · rintro ⟨h1, h2, h3⟩
      by_cases hi : p.1 = i
      · exact Or.inl ⟨p.2, ⟨by omega, by omega⟩, by rw [← hi]⟩
      · exact Or.inr ⟨by omega, h2, h3⟩
  · rw [dif_neg h]
    simp only [List.not_mem_nil, false_iff]
    rintro ⟨h1, h2, h3⟩
    omega
termination_by i n => n - i
decreasing_by omega

/-- Lexicographic order on index pairs: the Python iteration order of the
nested loops. -/
def pairLt (p q : ℕ × ℕ) : Prop :=
  p.1 < q.1 ∨ (p.1 = q.1 ∧ p.2 < q.2)

lemma pairwise_pairsFrom : ∀ {i n : ℕ}, List.Pairwise pairLt (pairsFrom i n) := by
  intro i n
  rw [pairsFrom]
  by_cases h : i < n
  · rw [dif_pos h]
    rw [List.pairwise_append]
    refine ⟨?_, pairwise_pairsFrom (i := i + 1) (n := n), ?_⟩
    · exact List.Pairwise.map _ (fun a b hab => Or.inr ⟨rfl, hab⟩)
        (List.pairwise_lt_range' ..)
    · intro a ha b hb
      obtain ⟨j, _, rfl⟩ := List.mem_map.mp ha
      have hb1 := (mem_pairsFrom.mp hb).1
      exact Or.inl (by omega)
  · rw [dif_neg h]
    exact List.Pairwise.nil
termination_by i n => n - i
decreasing_by omega

lemma bestStep_fst_le {α : Type} (v : α → ℚ) :
    ∀ (l : List α) (b : ℚ × α), b.1 ≤ (l.foldl (bestStep v) b).1 := by
  intro l
  induction l with
  | nil => intro b; simp
  | cons k rest ih =>
    intro b
    simp only [List.foldl_cons]
    refine le_trans ?_ (ih (bestStep v b k))
    unfold bestStep
    split
    · simp only [gt_iff_lt] at *
      linarith [le_of_lt (by assumption : b.1 < v k)]
    · exact le_refl _

lemma bestStep_le_of_mem {α : Type} (v : α → ℚ) :
    ∀ (l : List α) (b : ℚ × α) (k : α), k ∈ l → v k ≤ (l.foldl (bestStep v) b).1 := by
  intro l
  induction l with
  | nil => intro b k hk; simp at hk
  | cons a rest ih =>
    intro b k hk
    simp only [List.foldl_cons]
    rcases List.mem_cons.mp hk with rfl | hk
    · refine le_trans ?_ (bestStep_fst_le v rest (bestStep v b k))
      unfold bestStep
      split
      · exact le_refl _
      · simp only [gt_iff_lt, not_lt] at *; assumption
    · exact ih (bestStep v b a) k hk

lemma bestStep_eq_init_or_mem {α : Type} (v : α → ℚ) :
    ∀ (l : List α) (b : ℚ × α),
      l.foldl (bestStep v) b = b ∨
      ∃ k ∈ l, l.foldl (bestStep v) b = (v k, k) := by
  intro l
  induction l with
  | nil => intro b; exact Or.inl rfl
  | cons a rest ih =>
    intro b
    simp only [List.foldl_cons]
    rcases ih (bestStep v b a) with h | ⟨k, hk, h⟩
    · rw [h]
      unfold bestStep
      split
      · exact Or.inr ⟨a, List.mem_cons_self a rest, rfl⟩
      · exact Or.inl rfl
    · exact Or.inr ⟨k, List.mem_cons_of_mem a hk, h⟩

lemma bestStep_stationary {α : Type} (v : α → ℚ) :
    ∀ (l : List α) (b : ℚ × α), (l.foldl (bestStep v) b).1 ≤ b.1 →
      l.foldl (bestStep v) b = b := by
  intro l
  induction l with
  | nil => intro b _; rfl
  | cons a rest ih =>
    intro b hb
    simp only [List.foldl_cons] at hb ⊢
    by_cases h : v a > b.1
    · exfalso
      have h1 : (bestStep v b a).1 = v a := by unfold bestStep; rw [if_pos h]
      have h2 := bestStep_fst_le v rest (bestStep v b a)
      rw [h1] at h2
      exact absurd (le_trans h2 hb) (not_le.mpr h)
    · have hstep : bestStep v b a = b := by unfold bestStep; rw [if_neg h]
      rw [hstep] at hb ⊢
      exact ih b hb

lemma bestStep_first_found {α : Type} (v : α → ℚ) :
    ∀ (l : List α) (b : ℚ × α), b.1 < (l.foldl (bestStep v) b).1 →
      ∃ l₁ k l₂, l = l₁ ++ k :: l₂ ∧
        l.foldl (bestStep v) b = (v k, k) ∧
        (∀ q ∈ l₁, v q < v k) ∧
        (∀ q ∈ l₂, v q ≤ v k) := by
  intro l
  induction l with
  | nil => intro b hb; simp at hb
  | cons a rest ih =>
    intro b hb
    simp only [List.foldl_cons] at hb ⊢
    by_cases h : v a > b.1
    · have hstep : bestStep v b a = (v a, a) := by unfold bestStep; rw [if_pos h]
      rw [hstep] at hb ⊢
      by_cases hrest : (rest.foldl (bestStep v) (v a, a)).1 ≤ v a
      · have hfix := bestStep_stationary v rest (v a, a) hrest
        refine ⟨[], a, rest, rfl, hfix, by simp, ?_⟩
        intro q hq
        have := bestStep_le_of_mem v rest (v a, a) q hq
        rw [hfix] at this
        exact this
      · obtain ⟨l₁, k, l₂, hsplit, hfold, hbefore, hafter⟩ :=
          ih (v a, a) (by simpa using not_le.mp hrest)
        refine ⟨a :: l₁, k, l₂, by simp [hsplit], hfold, ?_, hafter⟩
        intro q hq
        rcases List.mem_cons.mp hq with rfl | hq
        · have : v q < (rest.foldl (bestStep v) (v q, q)).1 := by
            simpa using not_le.mp hrest
          rw [hfold] at this
          exact this
        · exact hbefore q hq
    · have hstep : bestStep v b a = b := by unfold bestStep; rw [if_neg h]
      rw [hstep] at hb ⊢
      obtain ⟨l₁, k, l₂, hsplit, hfold, hbefore, hafter⟩ := ih b hb
      refine ⟨a :: l₁, k, l₂, by simp [hsplit], hfold, ?_, hafter⟩
      intro q hq
      rcases List.mem_cons.mp hq with rfl | hq
      · have hqb : v q ≤ b.1 := not_lt.mp (by simpa [gt_iff_lt] using h)
        have hbk : b.1 < v k := by rw [hfold] at hb; exact hb
        linarith
      · exact hbefore q hq

/-- The score of the `k`-th segment as looked up in the `scores` list built
by `detect_escalation` (`scores = [seg.score for seg in segments]`). -/
def scoreAt (segments : List SentimentSegment) (k : ℕ) : ℚ :=
  (segments.map (fun s => s.score)).getD k 0

/-- The drop `scores[i] - scores[j]` computed in the loop body of
`detect_escalation`. -/
def dropAt (segments : List SentimentSegment) (i j : ℕ) : ℚ :=
  scoreAt segments i - scoreAt segments j

/-- Specification-level list of all drops over ordered pairs `i < j`, in
iteration order. -/
def pairDrops (segments : List SentimentSegment) : List ℚ :=
  (pairsFrom 0 segments.length).map (fun p => dropAt segments p.1 p.2)

/-- `SentimentAnalyzer.detect_escalation` (sentiment_service.py lines
229-271): fewer than 2 segments short-circuits; otherwise the nested loops
track the maximum drop `scores[i] - scores[j]` (updating only on strictly
larger drops, so ties keep the first pair found) and report details iff
`max_drop >= threshold`. -/
def detect_escalation (threshold : ℚ) (segments : List SentimentSegment) :
    Bool × Option EscalationDetails :=
  if segments.length < 2 then (false, none)
  else
    let best := (pairsFrom 0 segments.length).foldl
      (bestStep (fun p => dropAt segments p.1 p.2)) (0, (0, 0))
    let max_drop := best.1
    let drop_start_idx := best.2.1
    let drop_end_idx := best.2.2
    let escalation_detected := decide (max_drop ≥ threshold)
    (escalation_detected,
      if escalation_detected then
        some { maxDrop := pyRound 3 max_drop
               startTime := (segments.getD drop_start_idx default).startTime
               endTime := (segments.getD drop_end_idx default).endTime
               startScore := pyRound 3 (scoreAt segments drop_start_idx)
               endScore := pyRound 3 (scoreAt segments drop_end_idx)
               duration := pyRound 2 ((segments.getD drop_end_idx default).endTime -
                 (segments.getD drop_start_idx default).startTime) }
      else none)

lemma maxdrop_iff {v : ℕ × ℕ → ℚ} {n : ℕ} {θ d : ℚ} (hθ : 0 < θ)
    (hd : ((pairsFrom 0 n).map v).maximum = (d : ℚ)) :
    θ ≤ ((pairsFrom 0 n).foldl (bestStep v) (0, (0, 0))).1 ↔ θ ≤ d := by
  constructor
  · intro hb
    rcases bestStep_eq_init_or_mem v (pairsFrom 0 n) (0, (0, 0)) with h0 | ⟨p, hp, hpe⟩
    · rw [h0] at hb
      simp at hb
      linarith
    · have hvp : v p ≤ d := List.le_maximum_of_mem (List.mem_map_of_mem v hp) hd
      rw [hpe] at hb
      exact le_trans hb hvp
  · intro hdle
    have hdm : d ∈ (pairsFrom 0 n).map v := List.maximum_mem hd
    obtain ⟨p, hp, hpd⟩ := List.mem_map.mp hdm
    have hle := bestStep_le_of_mem v (pairsFrom 0 n) (0, (0, 0)) p hp
    rw [hpd] at hle
    exact le_trans hdle hle

lemma best_pair_spec {v : ℕ × ℕ → ℚ} {n : ℕ} {θ : ℚ} (hθ : 0 < θ)
    (hb : θ ≤ ((pairsFrom 0 n).foldl (bestStep v) (0, (0, 0))).1) :
    ∃ p : ℕ × ℕ, p.1 < p.2 ∧ p.2 < n ∧
      (pairsFrom 0 n).foldl (bestStep v) (0, (0, 0)) = (v p, p) ∧
      (∀ q : ℕ × ℕ, q.1 < q.2 → q.2 < n → v q ≤ v p) ∧
      (∀ q : ℕ × ℕ, q.1 < q.2 → q.2 < n → pairLt q p → v q < v p) := by
  have h0 : ((0 : ℚ), ((0 : ℕ), (0 : ℕ))).1 <
      ((pairsFrom 0 n).foldl (bestStep v) (0, (0, 0))).1 := by
    simp only []
    exact lt_of_lt_of_le hθ hb
  obtain ⟨l₁, p, l₂, hsplit, hfold, hbefore, hafter⟩ :=
    bestStep_first_found v (pairsFrom 0 n) (0, (0, 0)) h0
  have hpmem : p ∈ pairsFrom 0 n := by
    rw [hsplit]
    exact List.mem_append_right _ (List.mem_cons_self ..)
  obtain ⟨-, hp12, hp2n⟩ := mem_pairsFrom.mp hpmem
  have hsorted := pairwise_pairsFrom (i := 0) (n := n)
  rw [hsplit, List.pairwise_append] at hsorted
  have hl₂ : ∀ q ∈ l₂, pairLt p q :=
    fun q hq => (List.pairwise_cons.mp hsorted.2.1).1 q hq
  refine ⟨p, hp12, hp2n, hfold, ?_, ?_⟩
  · intro q hq1 hq2
    have hqmem : q ∈ pairsFrom 0 n := mem_pairsFrom.mpr ⟨Nat.zero_le _, hq1, hq2⟩
    rw [hsplit] at hqmem
    rcases List.mem_append.mp hqmem with hq | hq
    · exact le_of_lt (hbefore q hq)
    · rcases List.mem_cons.mp hq with rfl | hq
      · exact le_refl _
      · exact hafter q hq
  · intro q hq1 hq2 hlt
    have hqmem : q ∈ pairsFrom 0 n := mem_pairsFrom.mpr ⟨Nat.zero_le _, hq1, hq2⟩
    rw [hsplit] at hqmem
    rcases List.mem_append.mp hqmem with hq | hq
    · exact hbefore q hq
    · rcases List.mem_cons.mp hq with rfl | hq
      · exfalso
        unfold pairLt at hlt
        omega
      · exfalso
        have hpq := hl₂ q hq
        unfold pairLt at hlt hpq
        omega

/-- The two-segment example from the specification: scores `0.9` and
`-0.8` at times `(0,5)` and `(10,15)`. -/
def escalation_example_segments : List SentimentSegment :=
  [{ startTime := 0, endTime := 5, text := "", sentiment := "positive",
     score := 9/10, confidence := 1, emotions := [], speaker := none },
   { startTime := 10, endTime := 15, text := "", sentiment := "negative",
     score := -(4/5), confidence := 1, emotions := [], speaker := none }]

/-- C1: with a positive threshold (the default is `0.5`), the detector
returns not-detected with empty details on fewer than 2 segments; it
detects iff the maximum drop over ordered pairs `i < j` reaches the
threshold; on detection the reported pair attains the maximum drop and is
the first such pair in iteration order (smallest `i`, then smallest `j`);
and the specification example evaluates as claimed. -/
theorem detect_escalation_spec (θ : ℚ) (hθ : 0 < θ) (segments : List SentimentSegment) :
    (segments.length < 2 → detect_escalation θ segments = (false, none)) ∧
    (∀ d : ℚ, (pairDrops segments).maximum = (d : ℚ) →
      ((detect_escalation θ segments).1 = true ↔ θ ≤ d)) ∧
    ((detect_escalation θ segments).1 = true →
      ∃ i j, i < j ∧ j < segments.length ∧
        (∀ i' j', i' < j' → j' < segments.length →
          dropAt segments i' j' ≤ dropAt segments i j) ∧
        (∀ i' j', i' < j' → j' < segments.length →
          (i' < i ∨ (i' = i ∧ j' < j)) →
          dropAt segments i' j' < dropAt segments i j) ∧
        (detect_escalation θ segments).2 = some
          { maxDrop := pyRound 3 (dropAt segments i j)
            startTime := (segments.getD i default).startTime
            endTime := (segments.getD j default).endTime
            startScore := pyRound 3 (scoreAt segments i)
            endScore := pyRound 3 (scoreAt segments j)
            duration := pyRound 2 ((segments.getD j default).endTime -
              (segments.getD i default).startTime) }) ∧
    detect_escalation escalation_threshold escalation_example_segments =
      (true, some { maxDrop := 17/10, startTime := 0, endTime := 15,
                    startScore := 9/10, endScore := -(4/5), duration := 15 }) := by
  have hexample : detect_escalation escalation_threshold escalation_example_segments =
      (true, some { maxDrop := 17/10, startTime := 0, endTime := 15,
                    startScore := 9/10, endScore := -(4/5), duration := 15 }) := by
    unfold detect_escalation escalation_example_segments pairsFrom pairsFrom pairsFrom
    norm_num [bestStep, dropAt, scoreAt, pyRound, round_eq, List.range',
      escalation_threshold]
  by_cases hlen : segments.length < 2
  · refine ⟨fun _ => ?_, fun d hd => ?_, fun hdet => ?_, hexample⟩
    · unfold detect_escalation
      rw [if_pos hlen]
    · exfalso
      have hempty : pairsFrom 0 segments.length = [] :=
        List.eq_nil_iff_forall_not_mem.mpr (fun p hp => by
          have := mem_pairsFrom.mp hp
          omega)
      rw [pairDrops, hempty] at hd
      simp at hd
    · exfalso
      have hzero : detect_escalation θ segments = (false, none) := by
        unfold detect_escalation
        rw [if_pos hlen]
      rw [hzero] at hdet
      exact Bool.false_ne_true hdet
  · rcases hfold : (pairsFrom 0 segments.length).foldl
      (bestStep (fun p => dropAt segments p.1 p.2)) (0, (0, 0)) with ⟨m, bi, bj⟩
    have hdef : detect_escalation θ segments =
        (decide (m ≥ θ),
          if decide (m ≥ θ) then
            some { maxDrop := pyRound 3 m
                   startTime := (segments.getD bi default).startTime
                   endTime := (segments.getD bj default).endTime
                   startScore := pyRound 3 (scoreAt segments bi)
                   endScore := pyRound 3 (scoreAt segments bj)
                   duration := pyRound 2 ((segments.getD bj default).endTime -
                     (segments.getD bi default).startTime) }
          else none) := by
      unfold detect_escalation
      rw [if_neg hlen, hfold]
    refine ⟨fun h => absurd h hlen, fun d hd => ?_, fun hdet => ?_, hexample⟩
    · rw [hdef]
      simp only [ge_iff_le, decide_eq_true_eq]
      have hiff := maxdrop_iff (v := fun p => dropAt segments p.1 p.2)
        (n := segments.length) hθ (by rw [pairDrops] at hd; exact hd)
      rw [hfold] at hiff
      exact hiff
    · have hθm : θ ≤ m := by
        rw [hdef] at hdet
        simpa [ge_iff_le] using hdet
      obtain ⟨p, hp12, hp2n, hfold2, hmax, hfirst⟩ :=
        best_pair_spec (v := fun p => dropAt segments p.1 p.2)
          (n := segments.length) hθ (by rw [hfold]; exact hθm)
      obtain ⟨p1, p2⟩ := p
      rw [hfold] at hfold2
      simp only [Prod.mk.injEq] at hfold2
      obtain ⟨hm, hbi, hbj⟩ := hfold2
      refine ⟨bi, bj, by omega, by omega, ?_, ?_, ?_⟩
      · intro i' j' h1 h2
        have := hmax (i', j') h1 h2
        simp only at this
        rw [hbi, hbj]
        exact this
      · intro i' j' h1 h2 hlt
        have := hfirst (i', j') h1 h2 (by
          unfold pairLt
          simp only []
          omega)
        simp only at this
        rw [hbi, hbj]
        exact this
      · rw [hdef]
        have hcond : decide (m ≥ θ) = true := by simpa [ge_iff_le] using hθm
        rw [hcond, hm, hbi, hbj]
        simp

/-- Witness for C1: on the empty list (fewer than 2 segments) the detector
returns not-detected with empty details, at the default threshold. -/
theorem detect_escalation_spec_witness :
    detect_escalation escalation_threshold [] = (false, none) :=
  (detect_escalation_spec escalation_threshold
    (by norm_num [escalation_threshold]) []).1 (by simp)

/-- Kinds of Python exceptions relevant to the embedded control flow. -/
inductive PyError where
  | runtimeError
  | kafkaError
  | valueError
  | otherError
deriving DecidableEq

/-- The three labels produced by the RoBERTa sentiment pipeline. -/
inductive RobertaLabel where
  | LABEL_0
  | LABEL_1
  | LABEL_2
deriving DecidableEq

/-- String form of a pipeline label, as used for the emotions mapping. -/
def label_str : RobertaLabel → String
  | .LABEL_0 => "LABEL_0"
  | .LABEL_1 => "LABEL_1"
  | .LABEL_2 => "LABEL_2"

/-- The `sentiment_values` mapping of `_calculate_weighted_score`
(sentiment_service.py lines 86-90). -/
def sentiment_values : RobertaLabel → ℚ
  | .LABEL_0 => -1
  | .LABEL_1 => 0
  | .LABEL_2 => 1

/-- `_map_roberta_label_to_sentiment` (sentiment_service.py lines 68-78). -/
def _map_roberta_label_to_sentiment : RobertaLabel → String × ℚ
  | .LABEL_0 => ("negative", -1)
  | .LABEL_1 => ("neutral", 0)
  | .LABEL_2 => ("positive", 1)

/-- Python `max(scores, key=lambda x: x["score"])`: the first item with the
maximal score; `none` models the `ValueError` raised on an empty list. -/
def top_label (scores : List (RobertaLabel × ℚ)) : Option (RobertaLabel × ℚ) :=
  match scores with
  | [] => none
  | x :: xs => some (xs.foldl (fun best item => if item.2 > best.2 then item else best) x)

/-- `_calculate_weighted_score` (sentiment_service.py lines 80-110). The
label derived from the top-scoring entry (lines 98-99) is unconditionally
overwritten by the band bucketing of lines 102-108, which is embedded as
`weighted_score_sentiment`. -/
def _calculate_weighted_score (lo hi : ℚ) (scores : List (RobertaLabel × ℚ)) :
    Option (String × ℚ × ℚ) :=
  match top_label scores with
  | none => none
  | some top =>
    let weighted_score := (scores.map (fun item => sentiment_values item.1 * item.2)).sum
    let confidence := top.2
    let sentiment := weighted_score_sentiment lo hi weighted_score
    some (sentiment, weighted_score, confidence)

/-- Result shape of `analyze_text`: `(sentiment, score, confidence, emotions)`. -/
abbrev TextAnalysis := String × ℚ × ℚ × List (String × ℚ)

/-- `_analyze_with_roberta` (sentiment_service.py lines 130-146): truncate
the text to 500 characters, run the pipeline, compute the weighted score,
and return the label scores as emotions. The pipeline call is an oracle
parameter. -/
def _analyze_with_roberta (pipeline : String → List (RobertaLabel × ℚ))
    (lo hi : ℚ) (text : String) : Option TextAnalysis :=
  let truncated := if text.length > 500 then String.mk (text.data.take 500) else text
  let results := pipeline truncated
  match _calculate_weighted_score lo hi results with
  | none => none
  | some (sentiment, score, confidence) =>
    some (sentiment, score, confidence,
      results.map (fun item => (label_str item.1, item.2)))

/-- Process-lifetime state of `SentimentAnalyzer`. -/
structure SentimentAnalyzerState where
  use_vader_fallback : Bool
  model_loaded : Bool
deriving DecidableEq

/-- State set by `SentimentAnalyzer.__init__` (sentiment_service.py
lines 21-25). -/
def sentiment_analyzer_init : SentimentAnalyzerState :=
  { use_vader_fallback := false, model_loaded := false }

/-- `SentimentAnalyzer.load_model` (sentiment_service.py lines 27-66):
on an initialization failure the process permanently switches to the
VADER fallback; on success the flag is untouched. -/
def load_model (init : Except PyError Unit) (st : SentimentAnalyzerState) :
    SentimentAnalyzerState :=
  match init with
  | .ok _ => { st with model_loaded := true }
  | .error _ => { st with use_vader_fallback := true, model_loaded := true }

/-- `SentimentAnalyzer.analyze_text` (sentiment_service.py lines 112-128):
blank text short-circuits; otherwise the primary path is used unless the
persistent fallback flag is set, and a throw from the primary path is
caught and answered by a direct VADER call. The engines are oracle
parameters; the returned state component makes explicit that the call does
not mutate the analyzer. -/
def analyze_text (roberta : String → Except PyError TextAnalysis)
    (vader : String → TextAnalysis) (st : SentimentAnalyzerState)
    (text : String) : TextAnalysis × SentimentAnalyzerState :=
  if text = "" ∨ pyStrip text = "" then (("neutral", 0, 1, []), st)
  else if st.use_vader_fallback then (vader text, st)
  else
    match roberta text with
    | .ok r => (r, st)
    | .error _ => (vader text, st)

/-- C4: if the process is not in permanent fallback mode and the primary
engine throws on a non-blank text, that call returns exactly the direct
VADER result and the persistent flag is unchanged; `analyze_text` never
mutates the analyzer state, and only a `load_model` failure sets the flag. -/
theorem analyze_text_transient_fallback
    (roberta : String → Except PyError TextAnalysis)
    (vader : String → TextAnalysis) (st : SentimentAnalyzerState)
    (text : String) (e : PyError)
    (hflag : st.use_vader_fallback = false)
    (htext : ¬(text = "" ∨ pyStrip text = ""))
    (hthrow : roberta text = .error e) :
    analyze_text roberta vader st text = (vader text, st) ∧
    (∀ (r : String → Except PyError TextAnalysis) (v : String → TextAnalysis)
        (s : SentimentAnalyzerState) (t : String),
        (analyze_text r v s t).2 = s) ∧
    (∀ s : SentimentAnalyzerState,
        (load_model (.ok ()) s).use_vader_fallback = s.use_vader_fallback) ∧
    (∀ (s : SentimentAnalyzerState) (err : PyError),
        (load_model (.error err) s).use_vader_fallback = true) := by
  refine ⟨?_, ?_, fun s => rfl, fun s err => rfl⟩
  · unfold analyze_text
    rw [if_neg htext, if_neg (by rw [hflag]; exact Bool.false_ne_true), hthrow]
  · intro r v s t
    unfold analyze_text
    split
    · rfl
    · split
      · rfl
      · cases hr : r t
        · rfl
        · rfl

/-- Witness for C4: a primary engine that always throws, on a non-blank
text, yields the direct VADER result with the flag still clear. -/
theorem analyze_text_transient_fallback_witness :
    analyze_text (fun _ => Except.error PyError.valueError)
      (fun _ => ("negative", -(1/2), 1/2, []))
      { use_vader_fallback := false, model_loaded := true } "bad" =
      (("negative", -(1/2), 1/2, []),
       { use_vader_fallback := false, model_loaded := true }) :=
  (analyze_text_transient_fallback
    (fun _ => Except.error PyError.valueError)
    (fun _ => ("negative", -(1/2), 1/2, []))
    { use_vader_fallback := false, model_loaded := true } "bad"
    PyError.valueError rfl
    (by decide) rfl).1

/-- C10: for texts longer than 500 characters the RoBERTa path depends
only on the first 500 characters: it returns exactly its result for the
truncated text, for every pipeline oracle. -/
theorem roberta_truncation (pipeline : String → List (RobertaLabel × ℚ))
    (lo hi : ℚ) (text : String) (h : 500 < text.length) :
    _analyze_with_roberta pipeline lo hi text =
      _analyze_with_roberta pipeline lo hi (String.mk (text.data.take 500)) := by
  have hdata : 500 < text.data.length := h
  have hlen : (String.mk (text.data.take 500)).length = 500 := by
    rw [show (String.mk (text.data.take 500)).length =
      (text.data.take 500).length from rfl, List.length_take]
    omega
  unfold _analyze_with_roberta
  rw [if_pos (by exact h), if_neg (by rw [hlen]; omega)]

/-- Witness for C10: a 501-character text analyzes identically to its
500-character prefix. -/
theorem roberta_truncation_witness :
    _analyze_with_roberta (fun _ => [(RobertaLabel.LABEL_1, 1)])
      neutral_range_lo neutral_range_hi (String.mk (List.replicate 501 'a')) =
    _analyze_with_roberta (fun _ => [(RobertaLabel.LABEL_1, 1)])
      neutral_range_lo neutral_range_hi
      (String.mk ((String.mk (List.replicate 501 'a')).data.take 500)) :=
  roberta_truncation (fun _ => [(RobertaLabel.LABEL_1, 1)])
    neutral_range_lo neutral_range_hi (String.mk (List.replicate 501 'a'))
    (by rw [show (String.mk (List.replicate 501 'a')).length =
      (List.replicate 501 'a').length from rfl, List.length_replicate]
        omega)

/-- Default `model_name` from sentiment-service `config.py`. -/
def model_name : String := "cardiffnlp/twitter-roberta-base-sentiment-latest"

/-- Default `service_name` from sentiment-service `config.py`. -/
def service_name : String := "sentiment-service"

/-- Payload of the `CallTranscribed` event as consumed by the sentiment
service (`models.events.CallTranscribedEventPayload`). -/
structure CallTranscribedEventPayload where
  callId : String
  transcription : String
  segments : List TranscriptionSegment
  duration : ℚ
  language : String
deriving DecidableEq

/-- The `CallTranscribed` envelope as consumed by the sentiment service. -/
structure CallTranscribedEvent where
  eventId : String
  eventType : String
  aggregateId : String
  aggregateType : String
  timestamp : String
  version : ℕ
  causationId : String
  correlationId : String
  payload : CallTranscribedEventPayload
deriving DecidableEq

/-- Metadata recorded on every published sentiment event
(main.py lines 93-97 of the sentiment service). -/
structure SentimentEventMetadata where
  service : String
  modelName : String
  usedFallback : Bool
deriving DecidableEq

/-- Payload of the published `SentimentAnalyzed` event. -/
structure SentimentAnalyzedEventPayload where
  callId : String
  overallSentiment : String
  sentimentScore : ℚ
  segments : List SentimentSegment
  escalationDetected : Bool
  escalationDetails : Option EscalationDetails
  processingTimeMs : ℚ
deriving DecidableEq

/-- The published `SentimentAnalyzed` envelope. -/
structure SentimentAnalyzedEvent where
  eventId : String
  aggregateId : String
  causationId : String
  correlationId : String
  metadata : SentimentEventMetadata
  payload : SentimentAnalyzedEventPayload
deriving DecidableEq

/-- `SentimentAnalyzer.analyze_segments` (sentiment_service.py lines
174-195): per-segment sentiment via `analyze_text`, copying the timing,
text and speaker fields. -/
def analyze_segments (roberta : String → Except PyError TextAnalysis)
    (vader : String → TextAnalysis) (st : SentimentAnalyzerState)
    (segments : List TranscriptionSegment) : List SentimentSegment :=
  segments.map (fun segment =>
    let r := (analyze_text roberta vader st segment.text).1
    { startTime := segment.startTime
      endTime := segment.endTime
      text := segment.text
      sentiment := r.1
      score := r.2.1
      confidence := r.2.2.1
      emotions := r.2.2.2
      speaker := segment.speaker })

/-- Number of engine invocations performed by one `analyze_text` call:
none for blank text, one on the happy path or in persistent fallback mode,
two when the primary throws and VADER answers. -/
def engine_invocations (roberta : String → Except PyError TextAnalysis)
    (st : SentimentAnalyzerState) (text : String) : ℕ :=
  if text = "" ∨ pyStrip text = "" then 0
  else if st.use_vader_fallback then 1
  else
    match roberta text with
    | .ok _ => 1
    | .error _ => 2

/-- Observable outcome of `process_single_event`: what was published, how
many engine invocations and publish attempts happened, and the analyzer
state afterwards. -/
structure ProcessOutcome where
  published : Option SentimentAnalyzedEvent
  engine_calls : ℕ
  publish_attempts : ℕ
  final_state : SentimentAnalyzerState
deriving DecidableEq

/-- `process_single_event` of the sentiment service (main.py lines
53-122): extract segments, short-circuit on empty, otherwise analyze,
aggregate, detect escalation, build the causally linked envelope and
attempt one publish. `freshId` stands for the generated `uuid4()` and
`processingTimeMs` for the measured wall-clock time. -/
def process_single_event (roberta : String → Except PyError TextAnalysis)
    (vader : String → TextAnalysis) (st : SentimentAnalyzerState)
    (freshId : String) (processingTimeMs : ℚ)
    (event : CallTranscribedEvent) : ProcessOutcome :=
  let call_id := event.aggregateId
  let segments := event.payload.segments
  if segments = [] then
    { published := none, engine_calls := 0, publish_attempts := 0, final_state := st }
  else
    let sentiment_segments := analyze_segments roberta vader st segments
    let overall := calculate_overall_sentiment neutral_range_lo neutral_range_hi
      sentiment_segments
    let esc := detect_escalation escalation_threshold sentiment_segments
    { published := some
        { eventId := freshId
          aggregateId := call_id
          causationId := event.eventId
          correlationId := event.correlationId
          metadata := { service := service_name, modelName := model_name,
                        usedFallback := st.use_vader_fallback }
          payload :=
            { callId := call_id
              overallSentiment := overall.1
              sentimentScore := pyRound 3 overall.2
              segments := sentiment_segments
              escalationDetected := esc.1
              escalationDetails := if esc.1 then esc.2 else none
              processingTimeMs := pyRound 2 processingTimeMs } }
      engine_calls := (segments.map (fun s => engine_invocations roberta st s.text)).sum
      publish_attempts := 1
      final_state := st }

/-- Payload of a `CallReceived` event
(transcription-service `models.events.CallReceivedPayload`). -/
structure CallReceivedPayload where
  callId : String
  callerId : String
  agentId : String
  channel : String
  startTime : String
  audioFileUrl : String
  audioFormat : String
  audioFileSize : ℕ
deriving DecidableEq

/-- The `CallReceived` envelope consumed by the transcription service. -/
structure CallReceivedEvent where
  eventId : String
  eventType : String
  aggregateId : String
  aggregateType : String
  timestamp : String
  version : ℕ
  causationId : Option String
  correlationId : String
  payload : CallReceivedPayload
deriving DecidableEq

/-- A diarized segment (transcription-service `models.events.Segment`). -/
structure Segment where
  speaker : String
  startTime : ℚ
  endTime : ℚ
  text : String
deriving DecidableEq, Inhabited

/-- Transcription result data (`models.events.TranscriptionData`). -/
structure TranscriptionData where
  fullText : String
  segments : List Segment
  language : String
  confidence : ℚ
deriving DecidableEq

/-- Payload of the transcription service's `CallTranscribed` output
envelope (`models.events.CallTranscribedPayload`). -/
structure CallTranscribedOutPayload where
  callId : String
  transcription : TranscriptionData
deriving DecidableEq

/-- The `CallTranscribed` envelope as built by the transcription service
(its `models.events.CallTranscribedEvent`; renamed here because the
sentiment-side model of the same event is a distinct shape). -/
structure CallTranscribedOut where
  eventId : String
  aggregateId : String
  causationId : String
  correlationId : String
  payload : CallTranscribedOutPayload
deriving DecidableEq

/-- The envelope construction of `process_transcription_events`
(transcription-service main.py lines 73-86): note `aggregateId` is set to
`call_id = event.payload.callId`, not to `event.aggregateId`. -/
def build_call_transcribed_event (freshId : String) (event : CallReceivedEvent)
    (transcription : TranscriptionData) : CallTranscribedOut :=
  let call_id := event.payload.callId
  { eventId := freshId
    aggregateId := call_id
    causationId := event.eventId
    correlationId := event.correlationId
    payload := { callId := call_id, transcription := transcription } }

/-- A `CallReceived` event whose envelope `aggregateId` disagrees with its
payload `callId`. -/
def mismatched_call_received : CallReceivedEvent :=
  { eventId := "evt-1", eventType := "CallReceived", aggregateId := "call-A",
    aggregateType := "Call", timestamp := "t0", version := 1,
    causationId := none, correlationId := "corr-1",
    payload := { callId := "call-B", callerId := "c", agentId := "a",
                 channel := "phone", startTime := "t0",
                 audioFileUrl := "u", audioFormat := "wav", audioFileSize := 1 } }

/-- C3 counterexample: the transcription service sets the output
`aggregateId` from `payload.callId`, so an input whose `aggregateId`
differs from its payload `callId` produces an output whose `aggregateId`
is not the input's `aggregateId`. -/
theorem causal_chain_counterexample :
    (build_call_transcribed_event "out-1" mismatched_call_received
       { fullText := "", segments := [], language := "en", confidence := 0 }).aggregateId
      = "call-B" ∧
    mismatched_call_received.aggregateId = "call-A" ∧
    ("call-B" : String) ≠ "call-A" :=
  ⟨rfl, rfl, by decide⟩

/-- C3 amended: both services copy `causationId` from the trigger's
`eventId` and `correlationId` unchanged; the sentiment service also copies
`aggregateId` from the input envelope, while the transcription service
takes it from the payload `callId`, which agrees with the input
`aggregateId` exactly when the input is consistent. -/
theorem causal_chain_amended (roberta : String → Except PyError TextAnalysis)
    (vader : String → TextAnalysis) (st : SentimentAnalyzerState)
    (freshId : String) (processingTimeMs : ℚ) (event : CallTranscribedEvent)
    (freshId2 : String) (received : CallReceivedEvent)
    (transcription : TranscriptionData) :
    (∀ out : SentimentAnalyzedEvent,
      (process_single_event roberta vader st freshId processingTimeMs event).published
        = some out →
      out.causationId = event.eventId ∧ out.correlationId = event.correlationId ∧
        out.aggregateId = event.aggregateId) ∧
    ((build_call_transcribed_event freshId2 received transcription).causationId
        = received.eventId ∧
     (build_call_transcribed_event freshId2 received transcription).correlationId
        = received.correlationId ∧
     (build_call_transcribed_event freshId2 received transcription).aggregateId
        = received.payload.callId) ∧
    (received.payload.callId = received.aggregateId →
      (build_call_transcribed_event freshId2 received transcription).aggregateId
        = received.aggregateId) := by
  refine ⟨?_, ⟨rfl, rfl, rfl⟩, fun h => h⟩
  intro out hout
  unfold process_single_event at hout
  by_cases hseg : event.payload.segments = []
  · rw [if_pos hseg] at hout
    exact absurd hout (by simp)
  · rw [if_neg hseg] at hout
    simp only [Option.some.injEq] at hout
    rw [← hout]
    exact ⟨rfl, rfl, rfl⟩

/-- Witness for C3 amended: on a consistent input event the transcription
output keeps the input `aggregateId`; instantiated with concrete values. -/
theorem causal_chain_amended_witness :
    (build_call_transcribed_event "out-2"
      { eventId := "evt-2", eventType := "CallReceived", aggregateId := "call-7",
        aggregateType := "Call", timestamp := "t0", version := 1,
        causationId := none, correlationId := "corr-2",
        payload := { callId := "call-7", callerId := "c", agentId := "a",
                     channel := "phone", startTime := "t0",
                     audioFileUrl := "u", audioFormat := "wav", audioFileSize := 1 } }
      { fullText := "", segments := [], language := "en", confidence := 0 }).aggregateId
      = "call-7" :=
  (causal_chain_amended (fun _ => Except.error PyError.valueError)
    (fun _ => ("neutral", 0, 1, [])) sentiment_analyzer_init "f" 0
    { eventId := "e", eventType := "CallTranscribed", aggregateId := "c",
      aggregateType := "Call", timestamp := "t", version := 1,
      causationId := "c0", correlationId := "r",
      payload := { callId := "c", transcription := "", segments := [],
                   duration := 0, language := "en" } }
    "out-2"
    { eventId := "evt-2", eventType := "CallReceived", aggregateId := "call-7",
      aggregateType := "Call", timestamp := "t0", version := 1,
      causationId := none, correlationId := "corr-2",
      payload := { callId := "call-7", callerId := "c", agentId := "a",
                   channel := "phone", startTime := "t0",
                   audioFileUrl := "u", audioFormat := "wav", audioFileSize := 1 } }
    { fullText := "", segments := [], language := "en", confidence := 0 }).2.2 rfl

/-- C9: an input event with zero segments is short-circuited: nothing is
published, no engine invocation and no publish attempt happen, and the
analyzer state is returned unchanged. -/
theorem process_single_event_empty_segments
    (roberta : String → Except PyError TextAnalysis)
    (vader : String → TextAnalysis) (st : SentimentAnalyzerState)
    (freshId : String) (processingTimeMs : ℚ) (event : CallTranscribedEvent)
    (hempty : event.payload.segments = []) :
    process_single_event roberta vader st freshId processingTimeMs event =
      { published := none, engine_calls := 0, publish_attempts := 0,
        final_state := st } := by
  unfold process_single_event
  rw [if_pos hempty]

/-- Witness for C9: a concrete empty-payload event is short-circuited. -/
theorem process_single_event_empty_segments_witness :
    process_single_event (fun _ => Except.error PyError.valueError)
      (fun _ => ("neutral", 0, 1, [])) sentiment_analyzer_init "f" 0
      { eventId := "e", eventType := "CallTranscribed", aggregateId := "c",
        aggregateType := "Call", timestamp := "t", version := 1,
        causationId := "c0", correlationId := "r",
        payload := { callId := "c", transcription := "", segments := [],
                     duration := 0, language := "en" } } =
      { published := none, engine_calls := 0, publish_attempts := 0,
        final_state := sentiment_analyzer_init } :=
  process_single_event_empty_segments (fun _ => Except.error PyError.valueError)
    (fun _ => ("neutral", 0, 1, [])) sentiment_analyzer_init "f" 0
    { eventId := "e", eventType := "CallTranscribed", aggregateId := "c",
      aggregateType := "Call", timestamp := "t", version := 1,
      causationId := "c0", correlationId := "r",
      payload := { callId := "c", transcription := "", segments := [],
                   duration := 0, language := "en" } } rfl

/-- Outcome of one attempt to serialize, send and await acknowledgment:
either the broker acknowledged, or a `KafkaError` was raised somewhere in
the `try` block, or some other exception was raised there. -/
inductive SendOutcome where
  | acked
  | kafkaErr
  | otherErr
deriving DecidableEq, BEq

/-- `KafkaService.publish_sentiment` of the sentiment service
(kafka_service.py lines 117-148): raises `RuntimeError` when the producer
was never initialized, otherwise converts every send outcome into a
boolean. -/
def publish_sentiment (producer : Option Unit) (outcome : SendOutcome) :
    Except PyError Bool :=
  match producer with
  | none => .error .runtimeError
  | some _ =>
    match outcome with
    | .acked => .ok true
    | .kafkaErr => .ok false
    | .otherErr => .ok false

/-- `KafkaService.publish_call_transcribed` of the transcription service
(kafka_service.py lines 138-184): lazily creates the producer outside the
`try` block (a creation failure propagates to the caller), then converts
every send outcome into a boolean. -/
def publish_call_transcribed (producer : Option Unit)
    (create_producer : Except PyError Unit) (outcome : SendOutcome) :
    Except PyError Bool :=
  match producer with
  | some _ =>
    (match outcome with
     | .acked => .ok true
     | .kafkaErr => .ok false
     | .otherErr => .ok false)
  | none =>
    match create_producer with
    | .error e => .error e
    | .ok _ =>
      match outcome with
      | .acked => .ok true
      | .kafkaErr => .ok false
      | .otherErr => .ok false

/-- C8 counterexample: with no producer yet and a broker that fails
producer creation (a broker outcome), `publish_call_transcribed` raises to
its caller instead of returning a boolean. -/
theorem publish_raises_counterexample :
    publish_call_transcribed none (.error .kafkaError) SendOutcome.acked =
      .error PyError.kafkaError := rfl

/-- C8 amended: once a producer exists (sentiment: initialized earlier;
transcription: lazily created successfully), both publish operations
return `true` exactly on acknowledgment and `false` on any caught
exception, never raising; but `publish_sentiment` raises `RuntimeError`
when called before producer initialization, and
`publish_call_transcribed` propagates a producer-creation failure. -/
theorem publish_returns_bool_amended (p : Unit) (outcome : SendOutcome)
    (create : Except PyError Unit) (e : PyError) :
    publish_sentiment (some p) outcome = .ok (outcome == SendOutcome.acked) ∧
    publish_call_transcribed (some p) create outcome =
      .ok (outcome == SendOutcome.acked) ∧
    publish_call_transcribed none (.ok ()) outcome =
      .ok (outcome == SendOutcome.acked) ∧
    publish_sentiment none outcome = .error PyError.runtimeError ∧
    publish_call_transcribed none (.error e) outcome = .error e := by
  refine ⟨?_, ?_, ?_, rfl, rfl⟩ <;> cases outcome <;> rfl

/-- A raw Whisper segment dict: timing, text, and the two quality signals
(`avg_logprob`, `no_speech_prob` accessed with `.get` defaults). -/
structure WhisperSegment where
  start : ℚ
  end_ : ℚ
  text : String
  avg_logprob : Option ℚ
  no_speech_prob : Option ℚ
deriving DecidableEq, Inhabited

/-- `PAUSE_THRESHOLD` of `_add_speaker_diarization`
(whisper_service.py line 86). -/
def PAUSE_THRESHOLD : ℚ := 3/2

/-- The speaker toggle of `_add_speaker_diarization`
(whisper_service.py line 101). -/
def toggle_speaker (current_speaker : String) : String :=
  if current_speaker = "agent" then "customer" else "agent"

/-- The loop of `_add_speaker_diarization` (whisper_service.py lines
92-110), carrying the current speaker, the previous raw end time, and
whether any segment has been emitted yet (the `len(processed) > 0` test). -/
def diarize_loop (current_speaker : String) (last_end_time : ℚ)
    (processed_nonempty : Bool) : List WhisperSegment → List Segment
  | [] => []
  | segment :: rest =>
    let start_time := segment.start
    let end_time := segment.end_
    let text := pyStrip segment.text
    let pause_duration := start_time - last_end_time
    let speaker :=
      if pause_duration > PAUSE_THRESHOLD ∧ processed_nonempty then
        toggle_speaker current_speaker
      else current_speaker
    { speaker := speaker, startTime := pyRound 2 start_time,
      endTime := pyRound 2 end_time, text := text } ::
      diarize_loop speaker end_time true rest

/-- `WhisperService._add_speaker_diarization` (whisper_service.py lines
75-113): scan with initial speaker `"agent"` and initial
`last_end_time = 0.0`. -/
def _add_speaker_diarization (segments : List WhisperSegment) : List Segment :=
  diarize_loop "agent" 0 false segments

lemma diarize_loop_length (l : List WhisperSegment) :
    ∀ (spk : String) (le : ℚ) (fl : Bool),
      (diarize_loop spk le fl l).length = l.length := by
  induction l with
  | nil => intro spk le fl; rfl
  | cons s rest ih => intro spk le fl; simp [diarize_loop, ih]

lemma diarize_loop_fields (l : List WhisperSegment) :
    ∀ (spk : String) (le : ℚ) (fl : Bool) (k : ℕ), k < l.length →
      ((diarize_loop spk le fl l).getD k default).startTime =
          pyRound 2 ((l.getD k default).start) ∧
      ((diarize_loop spk le fl l).getD k default).endTime =
          pyRound 2 ((l.getD k default).end_) ∧
      ((diarize_loop spk le fl l).getD k default).text =
          pyStrip ((l.getD k default).text) := by
  induction l with
  | nil => intro spk le fl k hk; simp at hk
  | cons s rest ih =>
    intro spk le fl k hk
    cases k with
    | zero => simp [diarize_loop]
    | succ k =>
      simp only [diarize_loop, List.getD_cons_succ]
      exact ih _ _ _ k (by simpa using hk)

lemma add_speaker_diarization_cons (s : WhisperSegment) (rest : List WhisperSegment) :
    _add_speaker_diarization (s :: rest) =
      { speaker := "agent", startTime := pyRound 2 s.start,
        endTime := pyRound 2 s.end_, text := pyStrip s.text } ::
        diarize_loop "agent" s.end_ true rest := by
  simp [_add_speaker_diarization, diarize_loop]

lemma diarize_loop_head_speaker (spk : String) (le : ℚ) (s : WhisperSegment)
    (rest : List WhisperSegment) :
    ((diarize_loop spk le true (s :: rest)).getD 0 default).speaker =
      if s.start - le > PAUSE_THRESHOLD then toggle_speaker spk else spk := by
  simp [diarize_loop]

lemma diarize_loop_chain (l : List WhisperSegment) :
    ∀ (spk : String) (le : ℚ) (k : ℕ), k + 1 < l.length →
      ((diarize_loop spk le true l).getD (k+1) default).speaker =
        if (l.getD (k+1) default).start - (l.getD k default).end_ > PAUSE_THRESHOLD
        then toggle_speaker (((diarize_loop spk le true l).getD k default).speaker)
        else ((diarize_loop spk le true l).getD k default).speaker := by
  induction l with
  | nil => intro spk le k hk; simp at hk
  | cons s rest ih =>
    intro spk le k hk
    cases k with
    | zero =>
      cases rest with
      | nil => simp at hk
      | cons r rest' =>
        simp only [diarize_loop, List.getD_cons_succ, List.getD_cons_zero]
        simp [diarize_loop]
    | succ k =>
      simp only [diarize_loop, List.getD_cons_succ]
      exact ih _ _ k (by simpa using hk)

/-- C6: diarization labels the first segment `"agent"`, toggles the label
exactly when the silence gap (raw current start minus raw previous end)
strictly exceeds the 1.5 s threshold and keeps it otherwise, and rounds
each output segment's times to two decimals and trims its text. -/
theorem add_speaker_diarization_spec (segments : List WhisperSegment) :
    (_add_speaker_diarization segments).length = segments.length ∧
    (∀ k, k < segments.length →
      ((_add_speaker_diarization segments).getD k default).startTime =
          pyRound 2 ((segments.getD k default).start) ∧
      ((_add_speaker_diarization segments).getD k default).endTime =
          pyRound 2 ((segments.getD k default).end_) ∧
      ((_add_speaker_diarization segments).getD k default).text =
          pyStrip ((segments.getD k default).text)) ∧
    (segments ≠ [] →
      ((_add_speaker_diarization segments).getD 0 default).speaker = "agent") ∧
    (∀ k, k + 1 < segments.length →
      ((_add_speaker_diarization segments).getD (k+1) default).speaker =
        if (segments.getD (k+1) default).start -
            (segments.getD k default).end_ > PAUSE_THRESHOLD
        then toggle_speaker
          (((_add_speaker_diarization segments).getD k default).speaker)
        else ((_add_speaker_diarization segments).getD k default).speaker) := by
  refine ⟨diarize_loop_length segments "agent" 0 false,
    fun k hk => diarize_loop_fields segments "agent" 0 false k hk, ?_, ?_⟩
  · intro hne
    cases segments with
    | nil => exact absurd rfl hne
    | cons s rest => rw [add_speaker_diarization_cons]; rfl
  · intro k hk
    cases segments with
    | nil => simp at hk
    | cons s rest =>
      rw [add_speaker_diarization_cons]
      cases k with
      | zero =>
        cases rest with
        | nil => simp at hk
        | cons r rest' =>
          simp only [List.getD_cons_succ, List.getD_cons_zero]
          exact diarize_loop_head_speaker "agent" s.end_ r rest'
      | succ k =>
        simp only [List.getD_cons_succ]
        exact diarize_loop_chain rest "agent" s.end_ k (by simpa using hk)

/-- Witness for C6: a two-segment run with a 2-second gap toggles to
`"customer"`, instantiating the theorem's conditional clauses. -/
theorem add_speaker_diarization_spec_witness :
    ((_add_speaker_diarization
        [{ start := 0, end_ := 1, text := " hi ", avg_logprob := none,
           no_speech_prob := none },
         { start := 3, end_ := 4, text := "there", avg_logprob := none,
           no_speech_prob := none }]).getD 0 default).speaker = "agent" ∧
    ((_add_speaker_diarization
        [{ start := 0, end_ := 1, text := " hi ", avg_logprob := none,
           no_speech_prob := none },
         { start := 3, end_ := 4, text := "there", avg_logprob := none,
           no_speech_prob := none }]).getD 1 default).speaker =
      toggle_speaker "agent" :=
  have hspec := add_speaker_diarization_spec
    [{ start := 0, end_ := 1, text := " hi ", avg_logprob := none,
       no_speech_prob := none },
     { start := 3, end_ := 4, text := "there", avg_logprob := none,
       no_speech_prob := none }]
  have h0 := hspec.2.2.1 (by simp)
  have h1 := hspec.2.2.2 0 (by norm_num)
  ⟨h0, by
    rw [h1, if_pos (by norm_num [PAUSE_THRESHOLD]), h0]⟩

/-- Per-segment confidence of `_calculate_confidence` (whisper_service.py
lines 133-147): average of the clamped linear remap of `avg_logprob`
(defaulting to `-1.0`) and the complement of `no_speech_prob`
(defaulting to `0.5`). -/
def segment_confidence (segment : WhisperSegment) : ℚ :=
  let avg_logprob := segment.avg_logprob.getD (-1)
  let no_speech_prob := segment.no_speech_prob.getD (1/2)
  let logprob_confidence := max 0 (min 1 ((avg_logprob + 2) / 2))
  let speech_confidence := 1 - no_speech_prob
  (logprob_confidence + speech_confidence) / 2

/-- `WhisperService._calculate_confidence` (whisper_service.py lines
115-160): empty input yields `0.0`; a zero total duration (summed over all
segments, unfiltered) yields the unweighted `np.mean` of the per-segment
confidences; otherwise the duration-weighted average over all segments,
rounded to three decimals. -/
def _calculate_confidence (segments : List WhisperSegment) : ℚ :=
  if segments = [] then 0
  else
    let confidences := segments.map segment_confidence
    let total_duration := (segments.map (fun s => s.end_ - s.start)).sum
    if total_duration = 0 then confidences.sum / (confidences.length : ℚ)
    else
      let weighted_sum := ((confidences.zip segments).map
        (fun p => p.1 * (p.2.end_ - p.2.start))).sum
      pyRound 3 (weighted_sum / total_duration)

/-- The per-segment confidences viewed as scores of sentiment segments, so
that the section 4.3 aggregation rule (`calculate_overall_sentiment`) can
be applied to them verbatim. -/
def confidence_pseudo_segments (segments : List WhisperSegment) :
    List SentimentSegment :=
  segments.map (fun s =>
    { startTime := s.start, endTime := s.end_, text := s.text, sentiment := "",
      score := segment_confidence s, confidence := 0, emotions := [],
      speaker := none })

/-- A zero-duration segment with perfect quality signals. -/
def zero_duration_whisper_segment : WhisperSegment :=
  { start := 0, end_ := 0, text := "", avg_logprob := some 0,
    no_speech_prob := some 0 }

/-- C7 counterexample: on a single zero-duration segment the code returns
the unweighted mean `1`, whereas the section 4.3 aggregation rule applied
to the same per-segment confidence returns `0` (its zero-total-duration
prescription), so the blended confidence does not follow the 4.3 rule. -/
theorem calculate_confidence_counterexample :
    _calculate_confidence [zero_duration_whisper_segment] = 1 ∧
    (calculate_overall_sentiment neutral_range_lo neutral_range_hi
      (confidence_pseudo_segments [zero_duration_whisper_segment])).2 = 0 ∧
    (1 : ℚ) ≠ 0 := by
  refine ⟨?_, ?_, by norm_num⟩
  · norm_num [_calculate_confidence, segment_confidence,
      zero_duration_whisper_segment]
  · norm_num [calculate_overall_sentiment, confidence_pseudo_segments,
      sentiment_totals, zero_duration_whisper_segment, segment_confidence]

lemma zip_map_confidence_sum (segments : List WhisperSegment) :
    (((segments.map segment_confidence).zip segments).map
      (fun p => p.1 * (p.2.end_ - p.2.start))).sum =
    (segments.map (fun s => segment_confidence s * (s.end_ - s.start))).sum := by
  induction segments with
  | nil => rfl
  | cons s rest ih => simp [ih]

lemma pseudo_positive_total (segments : List WhisperSegment)
    (h : ∀ s ∈ segments, 0 < s.end_ - s.start) :
    positive_duration_total (confidence_pseudo_segments segments) =
      (segments.map (fun s => s.end_ - s.start)).sum := by
  induction segments with
  | nil => rfl
  | cons s rest ih =>
    have hs := h s (List.mem_cons_self ..)
    simp only [confidence_pseudo_segments, positive_duration_total,
      List.map_cons, List.filter_cons, decide_eq_true_eq,
      List.sum_cons] at ih ⊢
    rw [if_pos (by exact hs)]
    simp only [List.map_cons, List.sum_cons]
    rw [ih (fun q hq => h q (List.mem_cons_of_mem _ hq))]

lemma pseudo_positive_weighted (segments : List WhisperSegment)
    (h : ∀ s ∈ segments, 0 < s.end_ - s.start) :
    positive_duration_weighted_sum (confidence_pseudo_segments segments) =
      (segments.map (fun s => segment_confidence s * (s.end_ - s.start))).sum := by
  induction segments with
  | nil => rfl
  | cons s rest ih =>
    have hs := h s (List.mem_cons_self ..)
    simp only [confidence_pseudo_segments, positive_duration_weighted_sum,
      List.map_cons, List.filter_cons, decide_eq_true_eq,
      List.sum_cons] at ih ⊢
    rw [if_pos (by exact hs)]
    simp only [List.map_cons, List.sum_cons]
    rw [ih (fun q hq => h q (List.mem_cons_of_mem _ hq))]

/-- C7 amended: for a nonempty segment list the blended confidence is the
duration-weighted average over all segments (no positive-duration filter)
rounded to three decimals when the unfiltered total duration is nonzero,
and the unweighted mean of the per-segment confidences when that total is
zero (instead of section 4.3's neutral-zero prescription); when every
segment has strictly positive duration the filter of section 4.3 is
vacuous and the blended confidence coincides with the 4.3 aggregation of
the per-segment confidences, up to the final 3-decimal rounding. -/
theorem calculate_confidence_amended (segments : List WhisperSegment)
    (hne : segments ≠ []) :
    ((segments.map (fun s => s.end_ - s.start)).sum ≠ 0 →
      _calculate_confidence segments = pyRound 3
        ((segments.map (fun s => segment_confidence s * (s.end_ - s.start))).sum /
          (segments.map (fun s => s.end_ - s.start)).sum)) ∧
    ((segments.map (fun s => s.end_ - s.start)).sum = 0 →
      _calculate_confidence segments =
        (segments.map segment_confidence).sum / (segments.length : ℚ)) ∧
    ((∀ s ∈ segments, 0 < s.end_ - s.start) →
      _calculate_confidence segments = pyRound 3
        ((calculate_overall_sentiment neutral_range_lo neutral_range_hi
          (confidence_pseudo_segments segments)).2)) := by
  have htotal_eq := zip_map_confidence_sum segments
  refine ⟨?_, ?_, ?_⟩
  · intro htot
    unfold _calculate_confidence
    rw [if_neg hne, if_neg htot, htotal_eq]
  · intro htot
    unfold _calculate_confidence
    rw [if_neg hne, if_pos htot]
    simp
  · intro hpos
    have htot : (segments.map (fun s => s.end_ - s.start)).sum ≠ 0 := by
      have hp : 0 < (segments.map (fun s => s.end_ - s.start)).sum := by
        apply List.sum_pos
        · intro x hx
          obtain ⟨s, hs, rfl⟩ := List.mem_map.mp hx
          exact hpos s hs
        · simpa using hne
      exact ne_of_gt hp
    have hlhs : _calculate_confidence segments = pyRound 3
        ((segments.map (fun s => segment_confidence s * (s.end_ - s.start))).sum /
          (segments.map (fun s => s.end_ - s.start)).sum) := by
      unfold _calculate_confidence
      rw [if_neg hne, if_neg htot, htotal_eq]
    have hpne : confidence_pseudo_segments segments ≠ [] := by
      unfold confidence_pseudo_segments
      simpa using hne
    have hrhs : (calculate_overall_sentiment neutral_range_lo neutral_range_hi
        (confidence_pseudo_segments segments)).2 =
        (segments.map (fun s => segment_confidence s * (s.end_ - s.start))).sum /
          (segments.map (fun s => s.end_ - s.start)).sum := by
      unfold calculate_overall_sentiment
      rw [if_neg hpne]
      simp only [sentiment_totals_spec]
      rw [if_neg (by rw [pseudo_positive_total segments hpos]; exact htot)]
      rw [pseudo_positive_total segments hpos, pseudo_positive_weighted segments hpos]
    rw [hlhs, hrhs]

/-- Witness for C7 amended: one segment of duration 2 with perfect quality
signals blends to confidence 1 under the weighted branch. -/
theorem calculate_confidence_amended_witness :
    _calculate_confidence
      [{ start := 0, end_ := 2, text := "", avg_logprob := some 0,
         no_speech_prob := some 0 }] = pyRound 3
      ((([{ start := 0, end_ := 2, text := "", avg_logprob := some 0,
            no_speech_prob := some 0 }] : List WhisperSegment).map
          (fun s => segment_confidence s * (s.end_ - s.start))).sum /
        (([{ start := 0, end_ := 2, text := "", avg_logprob := some 0,
             no_speech_prob := some 0 }] : List WhisperSegment).map
          (fun s => s.end_ - s.start)).sum) :=
  (calculate_confidence_amended
    [{ start := 0, end_ := 2, text := "", avg_logprob := some 0,
       no_speech_prob := some 0 }] (by simp)).1 (by norm_num)
